import Mathlib

/-!
Shallow embedding of `src/workers/transactor/src/transactor.ts`
(`Transactor`, a per-workspace Cloudflare durable object gateway).

The actor state is modelled explicitly: the bound workspace name, the
session registry (`this.sessions : Map<WebSocket, WebsocketData>` as an
association list keyed by a websocket id), the runtime's websocket set
(`this.ctx.getWebSockets()`), and instrumentation logs recording the
externally visible effects: frames written to each transport, transport
`close` calls, `sessionManager.close` / `sessionManager.handleRequest`
invocations, `ctx.measure` calls and `console.error` lines.

External collaborators (token decoding, `sessionManager.addSession`,
the RPC codec, pipeline operations) are passed in as explicit outcome
parameters: the gateway code under verification is deterministic in them.
-/

namespace HulyTransactor

/-- Fixed keep-alive sentinel strings `pingConst` / `pongConst`, imported by the
source from the external package `@hcengineering/server-core`. Their exact
content is irrelevant to the gateway; only that they are fixed constants. -/
def pingConst : String := "ping"

/-- Fixed keep-alive reply sentinel, see `pingConst`. -/
def pongConst : String := "pong!"

/-- Transport readiness of a websocket (`WebSocket.readyState`). -/
inductive ReadyState
  | connecting
  | opened
  | closing
  | closed
deriving DecidableEq, Repr

/-- Decoded token payload (`decodeToken` result): the fields the transactor
reads are the workspace name and the principal email. -/
structure Token where
  workspaceName : String
  email : String
deriving DecidableEq, Repr

/-- Decoded RPC request envelope (`{ method, params, id }`). The `time` field
added by the keep-alive short circuit is a wall-clock read and is omitted. -/
structure Request where
  method : String
  params : List String
  id : Int
deriving DecidableEq, Repr

/-- Abstract wire frame written to a transport by `ws.send`:
the serialized upgrading notification `{ id: -1, result: { state: 'upgrading', stats } }`,
a raw broadcast payload (`Uint8Array`), or the raw `pongConst` string. -/
inductive Wire
  | upgradingMsg (stats : String)
  | bytes (payload : String)
  | pongFrame
deriving DecidableEq, Repr

/-- Serialized byte length of a frame, as reported to `ctx.measure`. The
external codec's exact sizing is abstracted; only determinism matters. -/
def wireLength : Wire → Nat
  | Wire.upgradingMsg stats => stats.length + 42
  | Wire.bytes payload => payload.length
  | Wire.pongFrame => pongConst.length

/-- Per-connection bundle stored in the registry (`WebsocketData`): the
connection socket (possibly absent), the token's email and the session's
binary-mode flag. -/
structure WebsocketData where
  connectionSocket : Option Nat
  email : String
  binaryMode : Bool
deriving DecidableEq, Repr

/-- One websocket known to the runtime (`ctx.getWebSockets()` entry), with its
transport state and an environment flag telling whether `ws.send` throws. -/
structure WSEntry where
  id : Nat
  readyState : ReadyState
  sendFails : Bool
deriving DecidableEq, Repr

/-- The observable state of one `Transactor` actor instance, together with
instrumentation logs for externally visible effects. -/
structure Actor where
  /-- `this.workspace`, bound from the first connection's token. -/
  workspace : String
  /-- `this.sessions`, the registry keyed by websocket id. -/
  sessions : List (Nat × WebsocketData)
  /-- the runtime's websocket set, `this.ctx.getWebSockets()`. -/
  websockets : List WSEntry
  /-- frames actually written to a transport (`ws.send` that did not throw). -/
  delivered : List (Nat × Wire)
  /-- every `ws.send` invocation, successful or not. -/
  attempts : List (Nat × Wire)
  /-- every transport `ws.close(code?, reason?)` invocation. -/
  wsCloseLog : List (Nat × Option Nat × Option String)
  /-- number of `sessionManager.close` invocations. -/
  smCloseCalls : Nat
  /-- number of `sessionManager.handleRequest` invocations. -/
  handleRequestCalls : Nat
  /-- number of `rpcHandler.readRequest` (codec) invocations. -/
  codecReadCalls : Nat
  /-- `ctx.measure(tag, size)` calls. -/
  measureLog : List (String × Nat)
  /-- `console.error` lines (message tags only). -/
  errorLog : List String
deriving DecidableEq, Repr

/-- Lookup in an association list keyed by websocket id (`Map.get`). -/
def lookupA (l : List (Nat × WebsocketData)) (k : Nat) : Option WebsocketData :=
  (l.find? (fun p => p.1 == k)).map Prod.snd

/-- `this.sessions.get(ws)`. -/
def lookupSession (st : Actor) (wsId : Nat) : Option WebsocketData :=
  lookupA st.sessions wsId

/-- Transport state of a given websocket id in the runtime's set. -/
def wsReadyStateOf (st : Actor) (wsId : Nat) : ReadyState :=
  match st.websockets.find? (fun w => w.id == wsId) with
  | some w => w.readyState
  | none => ReadyState.closed

/-- External RPC codec (`rpcHandler.readRequest`): may throw. -/
abbrev Codec := String → Bool → Except String Request

/-- The connection socket's `readRequest(buffer, binary)` from
`createWebsocketClientSocket`: a buffer of the probe's exact length that
equals `pingConst` yields a synthetic ping request; anything else is handed
to the external codec. The second component counts codec invocations. -/
def cs_readRequest (codec : Codec) (buffer : String) (binary : Bool) :
    Except String Request × Nat :=
  if buffer.length = pingConst.length then
    if buffer = pingConst then
      (Except.ok { method := pingConst, params := [], id := -1 }, 0)
    else
      (codec buffer binary, 1)
  else
    (codec buffer binary, 1)

/-- `webSocketMessage(ws, message)`: unregistered websockets (no registry
entry, or an entry without a connection socket) return immediately.
Otherwise the handler measures the inbound bytes, decodes via
`cs.readRequest` and dispatches to `sessionManager.handleRequest`; a decode
failure is caught by the surrounding try/catch and logged. The dispatch
itself is external and asynchronous (`ctx.waitUntil(r)`); it does not alter
actor state inside this handler. -/
def webSocketMessage (codec : Codec) (st : Actor) (wsId : Nat) (message : String) : Actor :=
  match lookupSession st wsId with
  | none => st
  | some sd =>
    match sd.connectionSocket with
    | none => st
    | some _ =>
      let st1 := { st with measureLog := ("receive-data", message.length) :: st.measureLog }
      match cs_readRequest codec message sd.binaryMode with
      | (Except.error _, n) =>
        { st1 with
          codecReadCalls := st1.codecReadCalls + n
          errorLog := "Failed to handle message:" :: st1.errorLog }
      | (Except.ok _, n) =>
        { st1 with
          codecReadCalls := st1.codecReadCalls + n
          handleRequestCalls := st1.handleRequestCalls + 1 }

/-- Runtime delivery of one inbound frame, with the auto-response pair
`setWebSocketAutoResponse(pingConst, pongConst)` installed by the
constructor: a frame equal to `pingConst` is answered with `pongConst` by
the runtime and never reaches `webSocketMessage`. The second component is
the auto-response reply, when one is produced. -/
def deliverIncoming (codec : Codec) (st : Actor) (wsId : Nat) (message : String) :
    Actor × Option String :=
  if message = pingConst then
    (st, some pongConst)
  else
    (webSocketMessage codec st wsId message, none)

/-- `handleClose(ws, code, reason?)`: close the transport (inside a try whose
failure is only logged), then, when the websocket is registered, delete its
registry entry and call `sessionManager.close` once. -/
def handleClose (st : Actor) (wsId : Nat) (code : Nat) (reason : Option String) : Actor :=
  let st1 := { st with wsCloseLog := (wsId, some code, reason) :: st.wsCloseLog }
  match lookupSession st1 wsId with
  | none => st1
  | some _ =>
    { st1 with
      sessions := st1.sessions.filter (fun p => p.1 != wsId)
      smCloseCalls := st1.smCloseCalls + 1 }

/-- `webSocketError(ws, error)`: log the transport error, then run the close
path with code 1011 and reason `error`. -/
def webSocketError (st : Actor) (wsId : Nat) : Actor :=
  handleClose { st with errorLog := "WebSocket error:" :: st.errorLog } wsId 1011 (some "error")

/-- `sendMessage(ws, message)`: attempt `ws.send`; when the transport throws,
log the failure and run that websocket's close path; otherwise the frame is
delivered. -/
def sendMessage (st : Actor) (w : WSEntry) (payload : String) : Actor :=
  let st1 := { st with attempts := (w.id, Wire.bytes payload) :: st.attempts }
  if w.sendFails then
    handleClose { st1 with errorLog := "Failed to send message:" :: st1.errorLog }
      w.id 1011 (some "error")
  else
    { st1 with delivered := (w.id, Wire.bytes payload) :: st1.delivered }

/-- `broadcastMessage(message)`: collect the websockets whose `readyState` is
`OPEN` at the moment of the call, then send to each independently. -/
def broadcastMessage (st : Actor) (payload : String) : Actor :=
  (st.websockets.filter (fun w => w.readyState == ReadyState.opened)).foldl
    (fun s w => sendMessage s w payload) st

/-- Outcome of `sessionManager.addSession` as observed by `handleSession`
(the admission service is external): an error (optionally marked
`terminate`), an upgrade-in-progress indicator carrying `upgradeInfo`, or an
established session with its negotiated binary mode. -/
inductive AddSessionOutcome
  | err (msg : String) (terminate : Bool)
  | upgrade (stats : String)
  | established (binaryMode : Bool)
deriving DecidableEq, Repr

/-- `handleSession(ws, request, token, rawToken, sessionId)`: accept the
websocket, build the connection socket, admit. An admission error closes the
transport with code 4003 (twice more via the outer catch re-close and once
more plain when `terminate`), and the error is rethrown. An upgrade outcome
sends exactly one informational message through `cs.send` (delivered when
the transport is open, since the fresh socket has `isClosed = false`), then
`cs.close()` closes the transport, and the call returns `true` without
registering. An established outcome stores the bundle in the registry. -/
def handleSession (st : Actor) (wsId : Nat) (tok : Token) (outcome : AddSessionOutcome) :
    Actor × Except String Bool :=
  match outcome with
  | AddSessionOutcome.err msg terminate =>
    let st1 := { st with
      errorLog := "Failed to establish session:" :: st.errorLog
      wsCloseLog := (wsId, some 4003, some "Session establishment failed") :: st.wsCloseLog }
    let st2 :=
      if terminate then
        { st1 with wsCloseLog := (wsId, none, none) :: st1.wsCloseLog }
      else st1
    let st3 := { st2 with
      errorLog := "Failed to establish session:" :: st2.errorLog
      wsCloseLog := (wsId, some 4003, some "Session establishment failed") :: st2.wsCloseLog }
    (st3, Except.error msg)
  | AddSessionOutcome.upgrade stats =>
    let st1 := { st with
      measureLog := ("send-data", wireLength (Wire.upgradingMsg stats)) :: st.measureLog }
    let st2 :=
      if wsReadyStateOf st1 wsId = ReadyState.opened then
        { st1 with delivered := (wsId, Wire.upgradingMsg stats) :: st1.delivered }
      else st1
    let st3 := { st2 with wsCloseLog := (wsId, none, none) :: st2.wsCloseLog }
    (st3, Except.ok true)
  | AddSessionOutcome.established binaryMode =>
    ({ st with
      sessions := (wsId, ⟨some wsId, tok.email, binaryMode⟩) :: st.sessions }, Except.ok true)

/-- `fetch(request)`: decode the token (a decode failure is caught, logged
and answered 404); bind `this.workspace` from the token's workspace name
only while it is still the empty string; then run `handleSession`, whose
thrown errors are caught and answered 404, and whose `true` result becomes
the 101 protocol-switch response. -/
def fetch (st : Actor) (decoded : Except String Token) (outcome : AddSessionOutcome)
    (wsId : Nat) : Actor × Nat :=
  match decoded with
  | Except.error _ =>
    ({ st with errorLog := "Failed to handle request" :: st.errorLog }, 404)
  | Except.ok payload =>
    let st1 :=
      if st.workspace = "" then { st with workspace := payload.workspaceName } else st
    match handleSession st1 wsId payload outcome with
    | (st2, Except.error _) =>
      ({ st2 with errorLog := "Failed to handle request" :: st2.errorLog }, 404)
    | (st2, Except.ok true) => (st2, 101)
    | (st2, Except.ok false) => (st2, 404)

/-- Outcome of `sessionManager.addSession` as observed by `makeRpcSession`:
an error object, an upgrade indicator, a result whose `session` field is
missing or undefined, or a usable session. -/
inductive RpcAddOutcome
  | err (msg : String)
  | upgrade
  | noSession
  | ok
deriving DecidableEq, Repr

/-- `makeRpcSession(rawToken, cs)`: decode the token, admit on the dummy
socket, throw on error / upgrade / missing session, and bind
`this.workspace` only while it is still the empty string. The thrown cases
surface as `Except.error`, to be caught by the bridge operation's catch. -/
def makeRpcSession (st : Actor) (decoded : Except String Token) (outcome : RpcAddOutcome) :
    Actor × Except String Token :=
  match decoded with
  | Except.error e => (st, Except.error e)
  | Except.ok token =>
    match outcome with
    | RpcAddOutcome.err m => (st, Except.error m)
    | RpcAddOutcome.upgrade => (st, Except.error "Workspace is upgrading")
    | RpcAddOutcome.noSession => (st, Except.error "No session")
    | RpcAddOutcome.ok =>
      (if st.workspace = "" then { st with workspace := token.workspaceName } else st,
        Except.ok token)

/-- Value returned by a bridge operation: either the pipeline's result or the
structured error object `{ error: message }` built by the catch clause. -/
inductive BridgeResult
  | ok (docs : List Nat)
  | errObj (msg : String)
deriving DecidableEq, Repr

/-- `findAll(rawToken, workspaceId, _class, query?, options?)`: make an
ephemeral RPC session on a dummy socket, invoke `pipeline.findAll` once
(outcome passed in as `pipelineFindAll`), turn any error into `{ error }`,
and release the ephemeral session via `sessionManager.close` in the
`finally` on every exit path. -/
def bridge_findAll (st : Actor) (decoded : Except String Token) (outcome : RpcAddOutcome)
    (pipelineFindAll : Except String (List Nat)) : Actor × BridgeResult :=
  match makeRpcSession st decoded outcome with
  | (st1, Except.error e) =>
    ({ st1 with smCloseCalls := st1.smCloseCalls + 1 }, BridgeResult.errObj e)
  | (st1, Except.ok _) =>
    match pipelineFindAll with
    | Except.error e =>
      ({ st1 with smCloseCalls := st1.smCloseCalls + 1 }, BridgeResult.errObj e)
    | Except.ok docs =>
      ({ st1 with smCloseCalls := st1.smCloseCalls + 1 }, BridgeResult.ok docs)

/-- `tx(rawToken, workspaceId, tx)`: same shape as `findAll`, invoking
`pipeline.tx` once. -/
def bridge_tx (st : Actor) (decoded : Except String Token) (outcome : RpcAddOutcome)
    (pipelineTx : Except String (List Nat)) : Actor × BridgeResult :=
  match makeRpcSession st decoded outcome with
  | (st1, Except.error e) =>
    ({ st1 with smCloseCalls := st1.smCloseCalls + 1 }, BridgeResult.errObj e)
  | (st1, Except.ok _) =>
    match pipelineTx with
    | Except.error e =>
      ({ st1 with smCloseCalls := st1.smCloseCalls + 1 }, BridgeResult.errObj e)
    | Except.ok docs =>
      ({ st1 with smCloseCalls := st1.smCloseCalls + 1 }, BridgeResult.ok docs)

/-- Account value or structured error returned by `getAccount`. -/
inductive AccountResult
  | ok (account : Nat)
  | errObj (msg : String)
deriving DecidableEq, Repr

/-- `getAccount(rawToken)`: same shape, invoking `session.getRawAccount`
once. -/
def bridge_getAccount (st : Actor) (decoded : Except String Token) (outcome : RpcAddOutcome)
    (rawAccount : Except String Nat) : Actor × AccountResult :=
  match makeRpcSession st decoded outcome with
  | (st1, Except.error e) =>
    ({ st1 with smCloseCalls := st1.smCloseCalls + 1 }, AccountResult.errObj e)
  | (st1, Except.ok _) =>
    match rawAccount with
    | Except.error e =>
      ({ st1 with smCloseCalls := st1.smCloseCalls + 1 }, AccountResult.errObj e)
    | Except.ok account =>
      ({ st1 with smCloseCalls := st1.smCloseCalls + 1 }, AccountResult.ok account)

/-- Transactions are opaque to the gateway; modelled by an identifier. -/
abbrev Tx := Nat

/-- Value returned by `pipeline.loadModel`: either a plain array of
transactions or an object with a `transactions` field. -/
inductive LoadModelRet
  | arr (txs : List Tx)
  | obj (transactions : List Tx)
deriving DecidableEq, Repr

/-- Normalization performed by `getModel` on the `loadModel` result
(`Array.isArray(ret) ? ret : ret.transactions`). -/
def loadModelTxs : LoadModelRet → List Tx
  | LoadModelRet.arr txs => txs
  | LoadModelRet.obj transactions => transactions

/-- External `JSON.stringify` composed with `TextEncoder.encode`, modelled as
a concrete injective byte encoding of the transaction list with a parser as
its left inverse; the real codec's byte format is outside the repository. -/
def jsonStringifyTxs (txs : List Tx) : List Nat :=
  txs.length :: txs

/-- Parser inverse to `jsonStringifyTxs` (external `JSON.parse` after
`TextDecoder`). -/
def jsonParseTxs (b : List Nat) : Option (List Tx) :=
  match b with
  | [] => none
  | n :: rest => if rest.length = n then some rest else none

/-- External `zlib.gzip`, modelled as a concrete deterministic lossless
coding (a header byte followed by the input). -/
def gzipBytes (b : List Nat) : List Nat :=
  b.length :: b

/-- Decompression inverse to `gzipBytes` (external `zlib.gunzip`). -/
def gunzipBytes (b : List Nat) : List Nat :=
  b.tail

/-- Compressed blob or structured error returned by `getModel`. -/
inductive ModelResult
  | blob (bytes : List Nat)
  | errObj (msg : String)
deriving DecidableEq, Repr

/-- `getModel(rawToken)`: make an ephemeral RPC session, invoke
`pipeline.loadModel(ctx, 0)` once, normalize the result, release the session
in the `finally`, then JSON-serialize, UTF-8 encode and gzip the transaction
list. An error at any stage is returned as `{ error }` (the session is still
released). -/
def getModel (st : Actor) (decoded : Except String Token) (outcome : RpcAddOutcome)
    (loadModel : Except String LoadModelRet) : Actor × ModelResult :=
  match makeRpcSession st decoded outcome with
  | (st1, Except.error e) =>
    ({ st1 with smCloseCalls := st1.smCloseCalls + 1 }, ModelResult.errObj e)
  | (st1, Except.ok _) =>
    match loadModel with
    | Except.error e =>
      ({ st1 with smCloseCalls := st1.smCloseCalls + 1 }, ModelResult.errObj e)
    | Except.ok ret =>
      ({ st1 with smCloseCalls := st1.smCloseCalls + 1 },
        ModelResult.blob (gzipBytes (jsonStringifyTxs (loadModelTxs ret))))

/-- State of one connection socket closure from
`createWebsocketClientSocket`: the closure's `isClosed` flag, the wrapped
websocket's transport state, the frames written to the transport (with their
compression flag) and the `ctx.measure` log. -/
structure SockState where
  isClosed : Bool
  wsReadyState : ReadyState
  framesSent : List (Wire × Bool)
  measureLog : List (String × Nat)
deriving DecidableEq, Repr

/-- `cs.send(ctx, msg, binary, compression)`: serialize, measure the
serialized size, then return without touching the transport when the
websocket is not OPEN or the closure is closed; otherwise optionally
compress and write the frame. -/
def cs_send (st : SockState) (msg : Wire) (_binary compression : Bool) : SockState :=
  let st1 := { st with measureLog := ("send-data", wireLength msg) :: st.measureLog }
  if st1.wsReadyState ≠ ReadyState.opened ∨ st1.isClosed then
    st1
  else
    { st1 with framesSent := (msg, compression) :: st1.framesSent }

/-- `cs.sendPong()`: write the raw `pongConst` frame, bypassing the codec;
a no-op when the websocket is not OPEN or the closure is closed. -/
def cs_sendPong (st : SockState) : SockState :=
  if st.wsReadyState ≠ ReadyState.opened ∨ st.isClosed then
    st
  else
    { st with framesSent := (Wire.pongFrame, false) :: st.framesSent }

/-- `cs.close()`: mark the closure closed and close the websocket. -/
def cs_close (st : SockState) : SockState :=
  { st with isClosed := true, wsReadyState := ReadyState.closing }

/-- `cs.checkState()`: false (after closing the websocket) once the transport
is closing or closed, true otherwise. -/
def cs_checkState (st : SockState) : SockState × Bool :=
  if st.wsReadyState = ReadyState.closed ∨ st.wsReadyState = ReadyState.closing then
    (st, false)
  else
    (st, true)


/-- Sample RPC codec that always succeeds (an environment instantiation). -/
def codecEx : Codec := fun s b =>
  Except.ok { method := "m", params := [s], id := if b then 1 else 0 }

/-- Sample RPC codec that always throws. -/
def codecBad : Codec := fun _ _ => Except.error "parse error"

/-- Sample registry entry with a connection socket. -/
def sdEx : WebsocketData := { connectionSocket := some 7, email := "a@b", binaryMode := false }

/-- Second sample registry entry. -/
def sdEx2 : WebsocketData := { connectionSocket := some 8, email := "c@d", binaryMode := true }

/-- Sample actor with two established connections (websockets 1 and 2, the
second of which has a failing transport) and one closed websocket 3. -/
def stEx : Actor :=
  { workspace := "ws1"
    sessions := [(1, sdEx), (2, sdEx2)]
    websockets := [⟨1, ReadyState.opened, false⟩, ⟨2, ReadyState.opened, true⟩,
      ⟨3, ReadyState.closed, false⟩]
    delivered := []
    attempts := []
    wsCloseLog := []
    smCloseCalls := 0
    handleRequestCalls := 0
    codecReadCalls := 0
    measureLog := []
    errorLog := [] }

/-- Sample freshly created actor: unbound workspace, empty registry, one open
websocket 5. -/
def stEmpty : Actor :=
  { workspace := ""
    sessions := []
    websockets := [⟨5, ReadyState.opened, false⟩]
    delivered := []
    attempts := []
    wsCloseLog := []
    smCloseCalls := 0
    handleRequestCalls := 0
    codecReadCalls := 0
    measureLog := []
    errorLog := [] }

/-- Sample dead connection socket closure. -/
def sockDead : SockState :=
  { isClosed := true, wsReadyState := ReadyState.closed, framesSent := [], measureLog := [] }

theorem lookupA_cons (a : Nat × WebsocketData) (l : List (Nat × WebsocketData)) (k : Nat) :
    lookupA (a :: l) k = if a.1 = k then some a.2 else lookupA l k := by
  by_cases h : a.1 = k
  · simp [lookupA, List.find?_cons, h]
  · simp [lookupA, List.find?_cons, h]

theorem lookupA_filter_self (l : List (Nat × WebsocketData)) (wsId : Nat) :
    lookupA (l.filter fun p => p.1 != wsId) wsId = none := by
  induction l with
  | nil => rfl
  | cons a tl ih =>
    by_cases h : a.1 = wsId
    · simpa [List.filter_cons, h] using ih
    · simp [List.filter_cons, h, lookupA_cons, ih]

theorem lookupA_filter_ne (l : List (Nat × WebsocketData)) (wsId k : Nat) (h : k ≠ wsId) :
    lookupA (l.filter fun p => p.1 != wsId) k = lookupA l k := by
  induction l with
  | nil => rfl
  | cons a tl ih =>
    by_cases ha : a.1 = wsId
    · have hwk : wsId ≠ k := fun hh => h hh.symm
      simp [List.filter_cons, ha, lookupA_cons, hwk, ih]
    · simp [List.filter_cons, ha, lookupA_cons, ih]

theorem filter_eq_self_of_not_memKey (l : List (Nat × WebsocketData)) (wsId : Nat)
    (h : wsId ∉ l.map Prod.fst) :
    (l.filter fun p => p.1 != wsId) = l := by
  induction l with
  | nil => rfl
  | cons a tl ih =>
    have ha : a.1 ≠ wsId := by
      intro hh
      exact h (by simp [hh.symm])
    have htl : wsId ∉ tl.map Prod.fst := by
      intro hh
      exact h (by simp [hh])
    simp [List.filter_cons, ha, ih htl]

theorem lookupA_filter_length (l : List (Nat × WebsocketData)) (wsId : Nat)
    (sd : WebsocketData) (hnd : (l.map Prod.fst).Nodup) (h : lookupA l wsId = some sd) :
    (l.filter fun p => p.1 != wsId).length + 1 = l.length := by
  induction l with
  | nil => simp [lookupA] at h
  | cons a tl ih =>
    have hnd2 : (a.1 :: tl.map Prod.fst).Nodup := by
      rw [List.map_cons] at hnd
      exact hnd
    have hnd' := List.nodup_cons.mp hnd2
    by_cases ha : a.1 = wsId
    · have hmem : wsId ∉ tl.map Prod.fst := by
        rw [← ha]
        exact hnd'.1
      simp [List.filter_cons, ha, filter_eq_self_of_not_memKey tl wsId hmem]
    · have h' : lookupA tl wsId = some sd := by
        simpa [lookupA_cons, ha] using h
      simp [List.filter_cons, ha, ih hnd'.2 h']

theorem handleClose_eq_of_mem (st : Actor) (wsId code : Nat) (reason : Option String)
    (sd : WebsocketData) (h : lookupSession st wsId = some sd) :
    handleClose st wsId code reason =
      { st with
        wsCloseLog := (wsId, some code, reason) :: st.wsCloseLog
        sessions := st.sessions.filter fun p => p.1 != wsId
        smCloseCalls := st.smCloseCalls + 1 } := by
  have h' : lookupA st.sessions wsId = some sd := h
  simp [handleClose, lookupSession, h']

theorem handleClose_eq_of_none (st : Actor) (wsId code : Nat) (reason : Option String)
    (h : lookupSession st wsId = none) :
    handleClose st wsId code reason =
      { st with wsCloseLog := (wsId, some code, reason) :: st.wsCloseLog } := by
  have h' : lookupA st.sessions wsId = none := h
  simp [handleClose, lookupSession, h']

theorem handleClose_wsCloseLog (st : Actor) (wsId code : Nat) (reason : Option String) :
    (handleClose st wsId code reason).wsCloseLog = (wsId, some code, reason) :: st.wsCloseLog := by
  rcases h : lookupSession st wsId with - | sd
  · rw [handleClose_eq_of_none st wsId code reason h]
  · rw [handleClose_eq_of_mem st wsId code reason sd h]

theorem handleClose_delivered (st : Actor) (wsId code : Nat) (reason : Option String) :
    (handleClose st wsId code reason).delivered = st.delivered := by
  rcases h : lookupSession st wsId with - | sd
  · rw [handleClose_eq_of_none st wsId code reason h]
  · rw [handleClose_eq_of_mem st wsId code reason sd h]

theorem handleClose_attempts (st : Actor) (wsId code : Nat) (reason : Option String) :
    (handleClose st wsId code reason).attempts = st.attempts := by
  rcases h : lookupSession st wsId with - | sd
  · rw [handleClose_eq_of_none st wsId code reason h]
  · rw [handleClose_eq_of_mem st wsId code reason sd h]

theorem handleClose_workspace (st : Actor) (wsId code : Nat) (reason : Option String) :
    (handleClose st wsId code reason).workspace = st.workspace := by
  rcases h : lookupSession st wsId with - | sd
  · rw [handleClose_eq_of_none st wsId code reason h]
  · rw [handleClose_eq_of_mem st wsId code reason sd h]

theorem handleClose_lookup_ne (st : Actor) (wsId code : Nat) (reason : Option String)
    (k : Nat) (hk : k ≠ wsId) :
    lookupSession (handleClose st wsId code reason) k = lookupSession st k := by
  rcases h : lookupSession st wsId with - | sd
  · rw [handleClose_eq_of_none st wsId code reason h]
    rfl
  · rw [handleClose_eq_of_mem st wsId code reason sd h]
    exact lookupA_filter_ne st.sessions wsId k hk

/-- C5: the first `handleClose` on a websocket with an established session
closes the transport with the given code and reason, removes exactly one
registry entry (its own: every other key is untouched) and makes exactly one
admission-side `sessionManager.close` call; a second `handleClose` on the
same websocket removes no registry entry and makes no cleanup call. -/
theorem handleClose_once_then_noop (st : Actor) (wsId code : Nat) (reason : Option String)
    (sd : WebsocketData) (hnd : (st.sessions.map Prod.fst).Nodup)
    (hmem : lookupSession st wsId = some sd) :
    (handleClose st wsId code reason).sessions.length + 1 = st.sessions.length
  ∧ lookupSession (handleClose st wsId code reason) wsId = none
  ∧ (∀ k, k ≠ wsId →
      lookupSession (handleClose st wsId code reason) k = lookupSession st k)
  ∧ (handleClose st wsId code reason).smCloseCalls = st.smCloseCalls + 1
  ∧ (handleClose st wsId code reason).wsCloseLog = (wsId, some code, reason) :: st.wsCloseLog
  ∧ (handleClose (handleClose st wsId code reason) wsId code reason).sessions
      = (handleClose st wsId code reason).sessions
  ∧ (handleClose (handleClose st wsId code reason) wsId code reason).smCloseCalls
      = (handleClose st wsId code reason).smCloseCalls := by
  have h1 := handleClose_eq_of_mem st wsId code reason sd hmem
  have hnone : lookupSession (handleClose st wsId code reason) wsId = none := by
    rw [h1]
    exact lookupA_filter_self st.sessions wsId
  have h2 := handleClose_eq_of_none (handleClose st wsId code reason) wsId code reason hnone
  refine ⟨?_, hnone, ?_, ?_, ?_, ?_, ?_⟩
  · rw [h1]
    exact lookupA_filter_length st.sessions wsId sd hnd hmem
  · intro k hk
    exact handleClose_lookup_ne st wsId code reason k hk
  · rw [h1]
  · rw [h1]
  · rw [h2]
  · rw [h2]

/-- Witness for C5 at a concrete two-entry registry. -/
theorem handleClose_once_then_noop_w :
    (handleClose stEx 1 1000 (some "bye")).sessions.length + 1 = stEx.sessions.length
  ∧ (handleClose (handleClose stEx 1 1000 (some "bye")) 1 1000 (some "bye")).smCloseCalls
      = (handleClose stEx 1 1000 (some "bye")).smCloseCalls := by
  have h := handleClose_once_then_noop stEx 1 1000 (some "bye") sdEx (by decide) (by decide)
  exact ⟨h.1, h.2.2.2.2.2.2⟩

/-- C2: a frame equal to the fixed keep-alive probe is answered with exactly
the fixed keep-alive reply by the auto-response pair installed in the
constructor, leaving the actor untouched, so the frame never reaches
`sessionManager.handleRequest`; and `readRequest` on a buffer exactly equal
to the probe returns the synthetic ping request without invoking the RPC
codec. -/
theorem keepalive_short_circuit (codec : Codec) (st : Actor) (wsId : Nat) (binary : Bool) :
    deliverIncoming codec st wsId pingConst = (st, some pongConst)
  ∧ (deliverIncoming codec st wsId pingConst).1.handleRequestCalls = st.handleRequestCalls
  ∧ cs_readRequest codec pingConst binary
      = (Except.ok { method := pingConst, params := [], id := -1 }, 0) := by
  refine ⟨?_, ?_, ?_⟩
  · simp [deliverIncoming]
  · simp [deliverIncoming]
  · simp [cs_readRequest]

/-- C8: `cs.send` and `cs.sendPong` are no-ops on a dead socket: when the
underlying websocket is not OPEN or the closure has been closed, no frame is
written to the transport, the closed flag and the transport state are
unchanged (the socket is never reopened), and neither operation can raise
(both are total functions). -/
theorem send_noop_on_dead_socket (st : SockState) (msg : Wire) (binary compression : Bool)
    (h : st.wsReadyState ≠ ReadyState.opened ∨ st.isClosed = true) :
    (cs_send st msg binary compression).framesSent = st.framesSent
  ∧ (cs_send st msg binary compression).isClosed = st.isClosed
  ∧ (cs_send st msg binary compression).wsReadyState = st.wsReadyState
  ∧ cs_sendPong st = st := by
  rcases h with h | h <;> simp [cs_send, cs_sendPong, h]

/-- Witness for C8 at a concrete closed socket. -/
theorem send_noop_on_dead_socket_w :
    (cs_send sockDead (Wire.bytes "x") false false).framesSent = sockDead.framesSent
  ∧ cs_sendPong sockDead = sockDead :=
  ⟨(send_noop_on_dead_socket sockDead (Wire.bytes "x") false false (Or.inr (by decide))).1,
    (send_noop_on_dead_socket sockDead (Wire.bytes "x") false false (Or.inr (by decide))).2.2.2⟩

/-- C10: an incoming websocket message for a websocket with no registry
entry, or whose entry has no connection socket, leaves the actor completely
unchanged: nothing is dispatched, no error is raised, no measurement is
recorded, and no state of the actor changes. -/
theorem unregistered_message_is_noop (codec : Codec) (st : Actor) (wsId : Nat)
    (message : String)
    (h : lookupSession st wsId = none ∨
      ∃ sd, lookupSession st wsId = some sd ∧ sd.connectionSocket = none) :
    webSocketMessage codec st wsId message = st := by
  rcases h with h | ⟨sd, h, hcs⟩
  · simp [webSocketMessage, h]
  · simp [webSocketMessage, h, hcs]

/-- Witness for C10 at a websocket absent from the registry. -/
theorem unregistered_message_is_noop_w :
    webSocketMessage codecEx stEx 99 "hello" = stEx :=
  unregistered_message_is_noop codecEx stEx 99 "hello" (Or.inl (by decide))

theorem webSocketMessage_frame (codec : Codec) (st : Actor) (wsId : Nat) (message : String) :
    (webSocketMessage codec st wsId message).sessions = st.sessions
  ∧ (webSocketMessage codec st wsId message).wsCloseLog = st.wsCloseLog
  ∧ (webSocketMessage codec st wsId message).smCloseCalls = st.smCloseCalls
  ∧ (webSocketMessage codec st wsId message).workspace = st.workspace
  ∧ (webSocketMessage codec st wsId message).delivered = st.delivered := by
  rcases h1 : lookupSession st wsId with - | sd
  · simp [webSocketMessage, h1]
  · rcases h2 : sd.connectionSocket with - | c
    · simp [webSocketMessage, h1, h2]
    · rcases h3 : cs_readRequest codec message sd.binaryMode with ⟨e | r, n⟩
      · simp [webSocketMessage, h1, h2, h3]
      · simp [webSocketMessage, h1, h2, h3]

/-- C9: whatever the decode or dispatch outcome of a single message,
`webSocketMessage` never removes a registry entry, never closes the
transport and never makes an admission cleanup call; when the websocket is
registered and decode fails, the failure is caught and logged; and the close
path is triggered by transport-level errors, `webSocketError`. -/
theorem message_failure_isolated (codec : Codec) (st : Actor) (wsId : Nat) (message : String) :
    (webSocketMessage codec st wsId message).sessions = st.sessions
  ∧ (webSocketMessage codec st wsId message).wsCloseLog = st.wsCloseLog
  ∧ (webSocketMessage codec st wsId message).smCloseCalls = st.smCloseCalls
  ∧ (∀ sd c e n, lookupSession st wsId = some sd → sd.connectionSocket = some c →
      cs_readRequest codec message sd.binaryMode = (Except.error e, n) →
      (webSocketMessage codec st wsId message).errorLog
        = "Failed to handle message:" :: st.errorLog)
  ∧ (webSocketError st wsId).wsCloseLog = (wsId, some 1011, some "error") :: st.wsCloseLog := by
  refine ⟨(webSocketMessage_frame codec st wsId message).1,
    (webSocketMessage_frame codec st wsId message).2.1,
    (webSocketMessage_frame codec st wsId message).2.2.1, ?_, ?_⟩
  · intro sd c e n h1 h2 h3
    simp [webSocketMessage, h1, h2, h3]
  · unfold webSocketError
    rw [handleClose_wsCloseLog]

/-- Witness for C9: a failing decode on an established connection is logged
and removes nothing. -/
theorem message_failure_isolated_w :
    (webSocketMessage codecBad stEx 1 "boom").sessions = stEx.sessions
  ∧ (webSocketMessage codecBad stEx 1 "boom").errorLog
      = "Failed to handle message:" :: stEx.errorLog :=
  ⟨(message_failure_isolated codecBad stEx 1 "boom").1,
    (message_failure_isolated codecBad stEx 1 "boom").2.2.2.1 sdEx 7 "parse error" 1
      (by decide) (by decide) (by rfl)⟩

/-- C6: when admission reports an upgrade in progress, `handleSession` sends
exactly one informational message carrying the upgrading state, then closes
the socket gracefully, adds no registry entry, makes no admission cleanup
call, and returns `true` (success, not an error). The hypothesis states that
the freshly accepted server websocket is open. -/
theorem upgrading_one_message_then_close (st : Actor) (wsId : Nat) (tok : Token)
    (stats : String) (hws : wsReadyStateOf st wsId = ReadyState.opened) :
    (handleSession st wsId tok (AddSessionOutcome.upgrade stats)).2 = Except.ok true
  ∧ (handleSession st wsId tok (AddSessionOutcome.upgrade stats)).1.delivered
      = (wsId, Wire.upgradingMsg stats) :: st.delivered
  ∧ (handleSession st wsId tok (AddSessionOutcome.upgrade stats)).1.sessions = st.sessions
  ∧ (handleSession st wsId tok (AddSessionOutcome.upgrade stats)).1.wsCloseLog
      = (wsId, none, none) :: st.wsCloseLog
  ∧ (handleSession st wsId tok (AddSessionOutcome.upgrade stats)).1.smCloseCalls
      = st.smCloseCalls := by
  have hws1 : wsReadyStateOf
      { st with
        measureLog := ("send-data", wireLength (Wire.upgradingMsg stats)) :: st.measureLog }
      wsId = ReadyState.opened := hws
  simp [handleSession, hws1]

/-- Witness for C6 at a fresh actor with open websocket 5. -/
theorem upgrading_one_message_then_close_w :
    (handleSession stEmpty 5 ⟨"wsX", "u@v"⟩ (AddSessionOutcome.upgrade "st")).1.sessions
      = stEmpty.sessions
  ∧ (handleSession stEmpty 5 ⟨"wsX", "u@v"⟩ (AddSessionOutcome.upgrade "st")).1.delivered
      = (5, Wire.upgradingMsg "st") :: stEmpty.delivered :=
  ⟨(upgrading_one_message_then_close stEmpty 5 ⟨"wsX", "u@v"⟩ "st" (by decide)).2.2.1,
    (upgrading_one_message_then_close stEmpty 5 ⟨"wsX", "u@v"⟩ "st" (by decide)).2.1⟩

theorem sendMessage_attempts (st : Actor) (w : WSEntry) (p : String) :
    (sendMessage st w p).attempts = (w.id, Wire.bytes p) :: st.attempts := by
  cases hw : w.sendFails <;>
    simp [sendMessage, hw, handleClose_attempts]

theorem sendMessage_delivered (st : Actor) (w : WSEntry) (p : String) :
    (sendMessage st w p).delivered =
      if w.sendFails then st.delivered else (w.id, Wire.bytes p) :: st.delivered := by
  cases hw : w.sendFails <;>
    simp [sendMessage, hw, handleClose_delivered]

theorem sendMessage_wsCloseLog (st : Actor) (w : WSEntry) (p : String) :
    (sendMessage st w p).wsCloseLog =
      if w.sendFails then (w.id, some 1011, some "error") :: st.wsCloseLog
      else st.wsCloseLog := by
  cases hw : w.sendFails <;>
    simp [sendMessage, hw, handleClose_wsCloseLog]

theorem sendMessage_workspace (st : Actor) (w : WSEntry) (p : String) :
    (sendMessage st w p).workspace = st.workspace := by
  cases hw : w.sendFails <;>
    simp [sendMessage, hw, handleClose_workspace]

theorem sendMessage_lookup (st : Actor) (w : WSEntry) (p : String) (k : Nat)
    (h : w.sendFails = true → k ≠ w.id) :
    lookupSession (sendMessage st w p) k = lookupSession st k := by
  cases hw : w.sendFails
  · simp [sendMessage, hw, lookupSession]
  · have hk := h hw
    simp only [sendMessage, hw, if_pos]
    rw [handleClose_lookup_ne _ _ _ _ _ hk]
    rfl

theorem sendFold_attempts (L : List WSEntry) (st : Actor) (p : String) :
    (L.foldl (fun s w => sendMessage s w p) st).attempts
      = (L.reverse.map fun w => (w.id, Wire.bytes p)) ++ st.attempts := by
  induction L generalizing st with
  | nil => simp
  | cons w tl ih =>
    simp [List.foldl_cons, ih, sendMessage_attempts]

theorem sendFold_delivered (L : List WSEntry) (st : Actor) (p : String) :
    (L.foldl (fun s w => sendMessage s w p) st).delivered
      = ((L.filter fun w => !w.sendFails).reverse.map fun w => (w.id, Wire.bytes p))
          ++ st.delivered := by
  induction L generalizing st with
  | nil => simp
  | cons w tl ih =>
    cases hw : w.sendFails <;>
      simp [List.foldl_cons, List.filter_cons, ih, sendMessage_delivered, hw]

theorem sendFold_wsCloseLog (L : List WSEntry) (st : Actor) (p : String) :
    (L.foldl (fun s w => sendMessage s w p) st).wsCloseLog
      = ((L.filter fun w => w.sendFails).reverse.map
          fun w => ((w.id, some 1011, some "error") : Nat × Option Nat × Option String))
          ++ st.wsCloseLog := by
  induction L generalizing st with
  | nil => simp
  | cons w tl ih =>
    cases hw : w.sendFails <;>
      simp [List.foldl_cons, List.filter_cons, ih, sendMessage_wsCloseLog, hw]

theorem sendFold_workspace (L : List WSEntry) (st : Actor) (p : String) :
    (L.foldl (fun s w => sendMessage s w p) st).workspace = st.workspace := by
  induction L generalizing st with
  | nil => rfl
  | cons w tl ih =>
    simp [List.foldl_cons, ih, sendMessage_workspace]

theorem sendFold_lookup (L : List WSEntry) (st : Actor) (p : String) (k : Nat)
    (h : ∀ w ∈ L, w.sendFails = true → k ≠ w.id) :
    lookupSession (L.foldl (fun s w => sendMessage s w p) st) k = lookupSession st k := by
  induction L generalizing st with
  | nil => rfl
  | cons w tl ih =>
    rw [List.foldl_cons]
    rw [ih (sendMessage st w p) (fun w' hw' => h w' (List.mem_cons_of_mem w hw'))]
    exact sendMessage_lookup st w p k (h w (List.mem_cons_self w tl))

/-- C4: `broadcastMessage` attempts a send on exactly the websockets whose
state is OPEN at the moment of the call; every open websocket whose
transport does not fail receives the payload; a send failure triggers
exactly that websocket's close path and no other websocket's, and does not
prevent delivery to the rest; registry entries of websockets that are not
failing open websockets are untouched. -/
theorem broadcast_independent_delivery (st : Actor) (p : String) :
    (broadcastMessage st p).attempts
      = ((st.websockets.filter fun w => w.readyState == ReadyState.opened).reverse.map
          fun w => (w.id, Wire.bytes p)) ++ st.attempts
  ∧ (broadcastMessage st p).delivered
      = (((st.websockets.filter fun w => w.readyState == ReadyState.opened).filter
          fun w => !w.sendFails).reverse.map fun w => (w.id, Wire.bytes p)) ++ st.delivered
  ∧ (broadcastMessage st p).wsCloseLog
      = (((st.websockets.filter fun w => w.readyState == ReadyState.opened).filter
          fun w => w.sendFails).reverse.map
            fun w => ((w.id, some 1011, some "error") : Nat × Option Nat × Option String))
          ++ st.wsCloseLog
  ∧ (∀ k, (∀ w ∈ st.websockets,
        w.readyState = ReadyState.opened → w.sendFails = true → k ≠ w.id) →
      lookupSession (broadcastMessage st p) k = lookupSession st k) := by
  refine ⟨sendFold_attempts _ st p, sendFold_delivered _ st p, sendFold_wsCloseLog _ st p, ?_⟩
  intro k hk
  apply sendFold_lookup
  intro w hw hfail
  have hmem := List.of_mem_filter hw
  have hopen : w.readyState = ReadyState.opened := by
    simpa using hmem
  exact hk w (List.mem_of_mem_filter hw) hopen hfail

/-- Witness for C4: broadcasting over one delivering, one failing and one
closed websocket. -/
theorem broadcast_independent_delivery_w :
    (broadcastMessage stEx "m").attempts
      = [(2, Wire.bytes "m"), (1, Wire.bytes "m")]
  ∧ (broadcastMessage stEx "m").delivered = [(1, Wire.bytes "m")]
  ∧ (broadcastMessage stEx "m").wsCloseLog = [(2, some 1011, some "error")]
  ∧ lookupSession (broadcastMessage stEx "m") 1 = lookupSession stEx 1 := by
  have h := broadcast_independent_delivery stEx "m"
  refine ⟨?_, ?_, ?_, ?_⟩
  · rw [h.1]; rfl
  · rw [h.2.1]; rfl
  · rw [h.2.2.1]; rfl
  · exact h.2.2.2 1 (by decide)

theorem makeRpcSession_frame (st : Actor) (decoded : Except String Token)
    (outcome : RpcAddOutcome) :
    (makeRpcSession st decoded outcome).1.sessions = st.sessions
  ∧ (makeRpcSession st decoded outcome).1.smCloseCalls = st.smCloseCalls := by
  rcases decoded with e | t
  · exact ⟨rfl, rfl⟩
  · cases outcome
    · exact ⟨rfl, rfl⟩
    · exact ⟨rfl, rfl⟩
    · exact ⟨rfl, rfl⟩
    · constructor <;> simp [makeRpcSession, apply_ite]

theorem makeRpcSession_workspace_stable (st : Actor) (decoded : Except String Token)
    (outcome : RpcAddOutcome) (hw : st.workspace ≠ "") :
    (makeRpcSession st decoded outcome).1.workspace = st.workspace := by
  rcases decoded with e | t
  · rfl
  · cases outcome <;> simp [makeRpcSession, hw]

theorem bridge_findAll_first (st : Actor) (decoded : Except String Token)
    (outcome : RpcAddOutcome) (pfind : Except String (List Nat)) :
    (bridge_findAll st decoded outcome pfind).1
      = { (makeRpcSession st decoded outcome).1 with
          smCloseCalls := (makeRpcSession st decoded outcome).1.smCloseCalls + 1 } := by
  unfold bridge_findAll
  rcases hm : makeRpcSession st decoded outcome with ⟨st1, e | t⟩
  · rfl
  · rcases pfind with e | docs <;> rfl

theorem bridge_tx_first (st : Actor) (decoded : Except String Token)
    (outcome : RpcAddOutcome) (ptx : Except String (List Nat)) :
    (bridge_tx st decoded outcome ptx).1
      = { (makeRpcSession st decoded outcome).1 with
          smCloseCalls := (makeRpcSession st decoded outcome).1.smCloseCalls + 1 } := by
  unfold bridge_tx
  rcases hm : makeRpcSession st decoded outcome with ⟨st1, e | t⟩
  · rfl
  · rcases ptx with e | docs <;> rfl

theorem bridge_getAccount_first (st : Actor) (decoded : Except String Token)
    (outcome : RpcAddOutcome) (paccount : Except String Nat) :
    (bridge_getAccount st decoded outcome paccount).1
      = { (makeRpcSession st decoded outcome).1 with
          smCloseCalls := (makeRpcSession st decoded outcome).1.smCloseCalls + 1 } := by
  unfold bridge_getAccount
  rcases hm : makeRpcSession st decoded outcome with ⟨st1, e | t⟩
  · rfl
  · rcases paccount with e | acc <;> rfl

theorem getModel_first (st : Actor) (decoded : Except String Token)
    (outcome : RpcAddOutcome) (lm : Except String LoadModelRet) :
    (getModel st decoded outcome lm).1
      = { (makeRpcSession st decoded outcome).1 with
          smCloseCalls := (makeRpcSession st decoded outcome).1.smCloseCalls + 1 } := by
  unfold getModel
  rcases hm : makeRpcSession st decoded outcome with ⟨st1, e | t⟩
  · rfl
  · rcases lm with e | ret <;> rfl

/-- C3: each bridge operation (`findAll`, `tx`, `getAccount`) releases the
ephemeral session via exactly one `sessionManager.close` call on every exit
path, leaves the session registry untouched, and captures every error as a
structured error object instead of raising it: an invalid token makes every
operation return the error object, as does a pipeline failure, while a
pipeline success is returned as the result (the operations are total
functions into a result-or-error type, so no exception can escape). -/
theorem bridge_captures_errors_and_releases (st : Actor) (decoded : Except String Token)
    (outcome : RpcAddOutcome) (pfind ptx : Except String (List Nat))
    (paccount : Except String Nat) :
    (bridge_findAll st decoded outcome pfind).1.smCloseCalls = st.smCloseCalls + 1
  ∧ (bridge_tx st decoded outcome ptx).1.smCloseCalls = st.smCloseCalls + 1
  ∧ (bridge_getAccount st decoded outcome paccount).1.smCloseCalls = st.smCloseCalls + 1
  ∧ (bridge_findAll st decoded outcome pfind).1.sessions = st.sessions
  ∧ (bridge_tx st decoded outcome ptx).1.sessions = st.sessions
  ∧ (bridge_getAccount st decoded outcome paccount).1.sessions = st.sessions
  ∧ (∀ e, decoded = Except.error e →
      (bridge_findAll st decoded outcome pfind).2 = BridgeResult.errObj e
      ∧ (bridge_tx st decoded outcome ptx).2 = BridgeResult.errObj e
      ∧ (bridge_getAccount st decoded outcome paccount).2 = AccountResult.errObj e)
  ∧ (∀ t, decoded = Except.ok t → outcome = RpcAddOutcome.ok →
      (∀ e, pfind = Except.error e →
        (bridge_findAll st decoded outcome pfind).2 = BridgeResult.errObj e)
      ∧ (∀ e, ptx = Except.error e →
        (bridge_tx st decoded outcome ptx).2 = BridgeResult.errObj e)
      ∧ (∀ e, paccount = Except.error e →
        (bridge_getAccount st decoded outcome paccount).2 = AccountResult.errObj e)
      ∧ (∀ ds, pfind = Except.ok ds →
        (bridge_findAll st decoded outcome pfind).2 = BridgeResult.ok ds)) := by
  refine ⟨?_, ?_, ?_, ?_, ?_, ?_, ?_, ?_⟩
  · rw [bridge_findAll_first]
    simp [(makeRpcSession_frame st decoded outcome).2]
  · rw [bridge_tx_first]
    simp [(makeRpcSession_frame st decoded outcome).2]
  · rw [bridge_getAccount_first]
    simp [(makeRpcSession_frame st decoded outcome).2]
  · rw [bridge_findAll_first]
    simp [(makeRpcSession_frame st decoded outcome).1]
  · rw [bridge_tx_first]
    simp [(makeRpcSession_frame st decoded outcome).1]
  · rw [bridge_getAccount_first]
    simp [(makeRpcSession_frame st decoded outcome).1]
  · intro e he
    subst he
    exact ⟨rfl, rfl, rfl⟩
  · intro t ht ho
    subst ht
    subst ho
    refine ⟨?_, ?_, ?_, ?_⟩
    · intro e he
      subst he
      simp [bridge_findAll, makeRpcSession]
    · intro e he
      subst he
      simp [bridge_tx, makeRpcSession]
    · intro e he
      subst he
      simp [bridge_getAccount, makeRpcSession]
    · intro ds hds
      subst hds
      simp [bridge_findAll, makeRpcSession]

/-- Witness for C3: an invalid token on `tx` yields the structured error
object and still releases the ephemeral session. -/
theorem bridge_captures_errors_and_releases_w :
    (bridge_tx stEx (Except.error "Invalid token") RpcAddOutcome.ok (Except.ok [])).2
      = BridgeResult.errObj "Invalid token"
  ∧ (bridge_tx stEx (Except.error "Invalid token") RpcAddOutcome.ok (Except.ok [])).1.smCloseCalls
      = stEx.smCloseCalls + 1
  ∧ (bridge_tx stEx (Except.error "Invalid token") RpcAddOutcome.ok (Except.ok [])).1.sessions
      = stEx.sessions := by
  have h := bridge_captures_errors_and_releases stEx (Except.error "Invalid token")
    RpcAddOutcome.ok (Except.ok []) (Except.ok []) (Except.ok 0)
  exact ⟨(h.2.2.2.2.2.2.1 "Invalid token" rfl).2.1, h.2.1, h.2.2.2.2.1⟩

theorem jsonParse_stringify (txs : List Tx) :
    jsonParseTxs (jsonStringifyTxs txs) = some txs := by
  simp [jsonParseTxs, jsonStringifyTxs]

theorem gunzip_gzip (b : List Nat) : gunzipBytes (gzipBytes b) = b := rfl

/-- C7: a successful `getModel` call returns the gzip compression of the
UTF-8 JSON encoding of the transactions reported by `pipeline.loadModel`
(under either return shape), so decompressing and parsing the returned blob
yields exactly those transactions; against an unchanged pipeline the blob is
independent of the actor state, so repeated calls yield equal content; and
the ephemeral session is released exactly once. -/
theorem getModel_roundtrip_idempotent (st st2 : Actor) (decoded : Except String Token)
    (outcome : RpcAddOutcome) (lm : Except String LoadModelRet) (tok : Token)
    (ret : LoadModelRet) (hd : decoded = Except.ok tok) (ho : outcome = RpcAddOutcome.ok)
    (hl : lm = Except.ok ret) :
    (getModel st decoded outcome lm).2
      = ModelResult.blob (gzipBytes (jsonStringifyTxs (loadModelTxs ret)))
  ∧ jsonParseTxs (gunzipBytes (gzipBytes (jsonStringifyTxs (loadModelTxs ret))))
      = some (loadModelTxs ret)
  ∧ (getModel st2 decoded outcome lm).2 = (getModel st decoded outcome lm).2
  ∧ (getModel st decoded outcome lm).1.smCloseCalls = st.smCloseCalls + 1 := by
  subst hd
  subst ho
  subst hl
  refine ⟨?_, ?_, ?_, ?_⟩
  · simp [getModel, makeRpcSession]
  · rw [gunzip_gzip]
    exact jsonParse_stringify _
  · simp [getModel, makeRpcSession]
  · rw [getModel_first]
    simp [(makeRpcSession_frame st (Except.ok tok) RpcAddOutcome.ok).2]

/-- Witness for C7 at a concrete three-transaction model. -/
theorem getModel_roundtrip_idempotent_w :
    (getModel stEx (Except.ok ⟨"ws1", "a@b"⟩) RpcAddOutcome.ok
        (Except.ok (LoadModelRet.arr [3, 1, 2]))).2
      = ModelResult.blob [4, 3, 3, 1, 2]
  ∧ jsonParseTxs (gunzipBytes [4, 3, 3, 1, 2]) = some [3, 1, 2] := by
  have h := getModel_roundtrip_idempotent stEx stEmpty (Except.ok ⟨"ws1", "a@b"⟩)
    RpcAddOutcome.ok (Except.ok (LoadModelRet.arr [3, 1, 2])) ⟨"ws1", "a@b"⟩
    (LoadModelRet.arr [3, 1, 2]) rfl rfl rfl
  exact ⟨h.1, h.2.1⟩

theorem handleSession_workspace (st : Actor) (wsId : Nat) (tok : Token)
    (outcome : AddSessionOutcome) :
    (handleSession st wsId tok outcome).1.workspace = st.workspace := by
  cases outcome
  · simp [handleSession, apply_ite]
  · simp [handleSession, apply_ite]
  · rfl

theorem fetch_workspace_stable (st : Actor) (decoded : Except String Token)
    (outcome : AddSessionOutcome) (wsId : Nat) (hw : st.workspace ≠ "") :
    (fetch st decoded outcome wsId).1.workspace = st.workspace := by
  rcases decoded with e | payload
  · rfl
  · have hite : (if st.workspace = "" then { st with workspace := payload.workspaceName }
        else st) = st := by simp [hw]
    rcases hh : handleSession st wsId payload outcome with ⟨st2, r⟩
    have hws : st2.workspace = st.workspace := by
      have h0 := handleSession_workspace st wsId payload outcome
      rw [hh] at h0
      exact h0
    cases r with
    | error e => simp [fetch, hite, hh, hws]
    | ok b => cases b <;> simp [fetch, hite, hh, hws]

theorem fetch_binds_first (st : Actor) (tok : Token) (outcome : AddSessionOutcome)
    (wsId : Nat) (hw : st.workspace = "") :
    (fetch st (Except.ok tok) outcome wsId).1.workspace = tok.workspaceName := by
  have hite : (if st.workspace = "" then { st with workspace := tok.workspaceName } else st)
      = { st with workspace := tok.workspaceName } := by simp [hw]
  rcases hh : handleSession { st with workspace := tok.workspaceName } wsId tok outcome
    with ⟨st2, r⟩
  have hws : st2.workspace = tok.workspaceName := by
    have h0 := handleSession_workspace { st with workspace := tok.workspaceName } wsId tok outcome
    rw [hh] at h0
    exact h0
  cases r with
  | error e => simp [fetch, hite, hh, hws]
  | ok b => cases b <;> simp [fetch, hite, hh, hws]

theorem makeRpcSession_binds_first (st : Actor) (tok : Token) (hw : st.workspace = "") :
    (makeRpcSession st (Except.ok tok) RpcAddOutcome.ok).1.workspace = tok.workspaceName := by
  simp [makeRpcSession, hw]

/-- C1: the workspace identity is bound at most once. Once `this.workspace`
is non-empty, no operation of the actor changes it: not `fetch`, not
`makeRpcSession`, none of the bridge operations, and none of the connection
handlers; and while it is still the empty string, `fetch` and
`makeRpcSession` set it from the connecting token's workspace name, so every
later connection for the same identity is served by the same binding. -/
theorem workspace_bound_at_most_once (st : Actor) (hw : st.workspace ≠ "")
    (codec : Codec) (decoded : Except String Token) (ao : AddSessionOutcome)
    (ro : RpcAddOutcome) (wsId code : Nat) (message p : String) (tok : Token)
    (reason : Option String) (pfind ptx : Except String (List Nat))
    (paccount : Except String Nat) (lm : Except String LoadModelRet) :
    (fetch st decoded ao wsId).1.workspace = st.workspace
  ∧ (makeRpcSession st decoded ro).1.workspace = st.workspace
  ∧ (bridge_findAll st decoded ro pfind).1.workspace = st.workspace
  ∧ (bridge_tx st decoded ro ptx).1.workspace = st.workspace
  ∧ (getModel st decoded ro lm).1.workspace = st.workspace
  ∧ (bridge_getAccount st decoded ro paccount).1.workspace = st.workspace
  ∧ (webSocketMessage codec st wsId message).workspace = st.workspace
  ∧ (handleClose st wsId code reason).workspace = st.workspace
  ∧ (webSocketError st wsId).workspace = st.workspace
  ∧ (broadcastMessage st p).workspace = st.workspace
  ∧ (handleSession st wsId tok ao).1.workspace = st.workspace
  ∧ (∀ st2, st2.workspace = "" →
      (fetch st2 (Except.ok tok) ao wsId).1.workspace = tok.workspaceName)
  ∧ (∀ st2, st2.workspace = "" →
      (makeRpcSession st2 (Except.ok tok) RpcAddOutcome.ok).1.workspace
        = tok.workspaceName) := by
  refine ⟨fetch_workspace_stable st decoded ao wsId hw,
    makeRpcSession_workspace_stable st decoded ro hw, ?_, ?_, ?_, ?_,
    (webSocketMessage_frame codec st wsId message).2.2.2.1,
    handleClose_workspace st wsId code reason, ?_,
    sendFold_workspace _ st p,
    handleSession_workspace st wsId tok ao,
    fun st2 h2 => fetch_binds_first st2 tok ao wsId h2,
    fun st2 h2 => makeRpcSession_binds_first st2 tok h2⟩
  · rw [bridge_findAll_first]
    exact makeRpcSession_workspace_stable st decoded ro hw
  · rw [bridge_tx_first]
    exact makeRpcSession_workspace_stable st decoded ro hw
  · rw [getModel_first]
    exact makeRpcSession_workspace_stable st decoded ro hw
  · rw [bridge_getAccount_first]
    exact makeRpcSession_workspace_stable st decoded ro hw
  · unfold webSocketError
    rw [handleClose_workspace]

/-- Witness for C1: a bound actor keeps its workspace across a new
connection, and a fresh actor binds the first token's workspace. -/
theorem workspace_bound_at_most_once_w :
    (fetch stEx (Except.ok ⟨"ws2", "x@y"⟩) (AddSessionOutcome.established false) 9).1.workspace
      = stEx.workspace
  ∧ (fetch stEmpty (Except.ok ⟨"ws2", "x@y"⟩)
      (AddSessionOutcome.established false) 9).1.workspace = "ws2" := by
  have h := workspace_bound_at_most_once stEx (by decide) codecEx
    (Except.ok ⟨"ws2", "x@y"⟩) (AddSessionOutcome.established false) RpcAddOutcome.ok
    9 1000 "m" "m" ⟨"ws2", "x@y"⟩ (some "r") (Except.ok []) (Except.ok [])
    (Except.ok 0) (Except.ok (LoadModelRet.arr []))
  exact ⟨h.1, h.2.2.2.2.2.2.2.2.2.2.2.1 stEmpty (by decide)⟩

end HulyTransactor
